import Mathlib

/-
Verification of the media-assembly pipeline in `src/main.py`.

Modelling conventions:
- Python float durations are modelled as exact rationals (`ℚ`).
- Python exceptions are modelled by `Except PyErr`.
- Python strings (for the tag-parsing logic) are modelled as `List Char`,
  with structurally recursive models of `str.split`, `str.replace`,
  `str.strip`, `str.upper`, `str.splitlines`, so that concrete runs are
  kernel-evaluable.
- Image pixels, codecs and file I/O are abstracted away; per-frame metadata
  (source sentence, duration, geometry) is kept.
-/

/-- Exceptions the modelled fragments of `main.py` can raise at runtime. -/
inductive PyErr where
  | zeroDivisionError
  | nameError
deriving DecidableEq, Repr

/-- Model of `detect_shorts` (src/main.py lines 366-372): returns `True` when
the vertical flag is set, otherwise tests `video_duration <= 60.0`.
The Python function contains no validation and no `raise`, so it is a total
pure function. -/
def detect_shorts (video_duration : ℚ) (target_vertical : Bool) : Bool :=
  if target_vertical then true
  else decide (video_duration ≤ 60)

/-- Model of the duration-reconciliation step of
`build_video_from_slides_and_audio` (src/main.py lines 229-236):
`video_duration = sum(clip.duration for clip in slides)`; if
`abs(video_duration - audio.duration) > 0.5` then
`scale = audio.duration / video_duration` (a `ZeroDivisionError` when the
total is zero) and every slide duration is multiplied by `scale`; otherwise
the durations are left untouched. -/
def reconcile_durations (ds : List ℚ) (audio_duration : ℚ) : Except PyErr (List ℚ) :=
  if |ds.sum - audio_duration| > 1/2 then
    if ds.sum = 0 then .error .zeroDivisionError
    else .ok (ds.map (fun d => d * (audio_duration / ds.sum)))
  else .ok ds

/-- Model of the music-extension step of `combine_audio_with_music`
(src/main.py line 198): `music_duration = max(voice.duration + 2, music.duration)`,
the duration to which `afx.audio_loop` extends the music track. -/
def music_loop_duration (voice_duration music_duration : ℚ) : ℚ :=
  max (voice_duration + 2) music_duration

/-- Model of the duration of `CompositeAudioClip([final_music, voice])`
(src/main.py line 208): a composite audio clip lasts as long as its longest
component, here the looped music and the narration. -/
def mixed_audio_duration (voice_duration music_duration : ℚ) : ℚ :=
  max (music_loop_duration voice_duration music_duration) voice_duration

/-- One rendered slide produced by `build_slides_from_script`: the source
sentence it was rendered from, its clip duration, and its canvas geometry.
Pixel content is abstracted. -/
structure Slide where
  text : String
  duration : ℚ
  width : ℕ
  height : ℕ
deriving DecidableEq, Repr

/-- Model of `build_slides_from_script` (src/main.py lines 144-182): the loop
`for i, sentence in enumerate(script_sentences)` appends exactly one clip per
sentence, in order, each with the given `slide_duration`; the canvas is
`(720, 1280)` when `vertical` else the given `resolution`. -/
def build_slides_from_script (script_sentences : List String) (slide_duration : ℚ)
    (resolution : ℕ × ℕ) (vertical : Bool) : List Slide :=
  script_sentences.map (fun sentence =>
    ⟨sentence, slide_duration,
      (if vertical then (720, 1280) else resolution).1,
      (if vertical then (720, 1280) else resolution).2⟩)

/-- The final muxed video as observable metadata: frame texts and (reconciled)
durations, the attached audio duration, the shorts flag, and the output
geometry. -/
structure VideoArtifact where
  frame_texts : List String
  frame_durations : List ℚ
  audio_duration : ℚ
  is_shorts : Bool
  width : ℕ
  height : ℕ
deriving DecidableEq, Repr

/-- Model of `build_video_from_slides_and_audio` (src/main.py lines 218-251):
reconcile the slide durations against the audio duration (lines 229-236), then
set the output geometry — for shorts, resize to height 1280 and center-crop to
720x1280 (lines 240-243); otherwise resize to height 720 keeping aspect
(line 245). -/
def build_video_from_slides_and_audio (slides : List Slide) (audio_duration : ℚ)
    (is_shorts : Bool) : Except PyErr VideoArtifact :=
  match reconcile_durations (slides.map Slide.duration) audio_duration with
  | .error e => .error e
  | .ok ds =>
    .ok ⟨slides.map Slide.text, ds, audio_duration, is_shorts,
      (if is_shorts then (720, 1280)
       else
         match slides.head? with
         | some s => (s.width * 720 / s.height, 720)
         | none => (0, 720)).1,
      (if is_shorts then (720, 1280)
       else
         match slides.head? with
         | some s => (s.width * 720 / s.height, 720)
         | none => (0, 720)).2⟩

/-- Modelled from the spec: `audio_path_to_duration` is called in `pipeline`
(src/main.py line 429) but is defined nowhere in the module. Spec §3 says the
format decision is derived from the mixed audio track's duration, so the
missing helper is modelled as returning the duration of the given mixed-audio
artifact (artifacts being represented by their durations). -/
def audio_path_to_duration (mixed_audio : ℚ) : ℚ :=
  mixed_audio

/-- Model of steps 5 of `pipeline` (src/main.py lines 429-443), assuming the
missing `audio_path_to_duration` behaves as spec-modelled above:
`is_shorts` is computed ONCE from the English mix (`combined_en`) and the
vertical preference, and is then used for BOTH the English and the Hindi
video; each language's slides are built from its own sentences at 4.0s per
slide with the preference-dependent resolution. -/
def pipeline_videos (sentences_en sentences_hi : List String)
    (mix_en_dur mix_hi_dur : ℚ) (prefer_vertical : Bool) :
    Except PyErr (VideoArtifact × VideoArtifact) :=
  match build_video_from_slides_and_audio
      (build_slides_from_script sentences_en 4
        (if prefer_vertical then (720, 1280) else (1280, 720)) prefer_vertical)
      mix_en_dur
      (detect_shorts (audio_path_to_duration mix_en_dur) prefer_vertical) with
  | .error e => .error e
  | .ok video_en =>
    match build_video_from_slides_and_audio
        (build_slides_from_script sentences_hi 4
          (if prefer_vertical then (720, 1280) else (1280, 720)) prefer_vertical)
        mix_hi_dur
        (detect_shorts (audio_path_to_duration mix_en_dur) prefer_vertical) with
    | .error e => .error e
    | .ok video_hi => .ok (video_en, video_hi)

/-- The top-level names actually defined in the module `src/main.py`
(its `def` statements). `audio_path_to_duration` is deliberately absent:
no definition for it exists anywhere in the file. -/
def module_defined_names : List String :=
  ["llm_generate", "tts_generate", "build_slides_from_script",
   "combine_audio_with_music", "build_video_from_slides_and_audio",
   "generate_thumbnail", "generate_description_and_tags",
   "upload_to_youtube", "split_script_into_sentences", "detect_shorts",
   "pipeline"]

/-- Python-string model: splitting on a (non-empty) separator, fuelled by the
input length so the recursion is structural. Matches CPython `str.split(sep)`
for a non-empty `sep`: left-to-right, non-overlapping, keeping empty pieces. -/
def pySplitAux (sep : List Char) : ℕ → List Char → List Char → List (List Char)
  | 0, _, acc => [acc.reverse]
  | _ + 1, [], acc => [acc.reverse]
  | fuel + 1, c :: rest, acc =>
    if sep.isPrefixOf (c :: rest) then
      acc.reverse :: pySplitAux sep fuel (List.drop (sep.length - 1) rest) []
    else
      pySplitAux sep fuel rest (c :: acc)

/-- Python `s.split(sep)` for non-empty `sep`. -/
def pySplit (s sep : List Char) : List (List Char) :=
  pySplitAux sep (s.length + 1) s []

/-- Join a list of pieces with a separator (inverse of `pySplit`). -/
def pyJoinWith (sep : List Char) : List (List Char) → List Char
  | [] => []
  | [x] => x
  | x :: y :: rest => x ++ sep ++ pyJoinWith sep (y :: rest)

/-- Python `s.replace(old, new)` for non-empty `old`. -/
def pyReplace (s old new : List Char) : List Char :=
  pyJoinWith new (pySplit s old)

/-- Python `pat in s` (substring containment) for non-empty `pat`. -/
def pyContainsSub (s pat : List Char) : Bool :=
  decide (1 < (pySplit s pat).length)

/-- Python `s.upper()` (ASCII-adequate model via `Char.toUpper`). -/
def pyUpper (s : List Char) : List Char :=
  s.map Char.toUpper

/-- Python `s.strip()`. -/
def pyStrip (s : List Char) : List Char :=
  ((s.dropWhile Char.isWhitespace).reverse.dropWhile Char.isWhitespace).reverse

/-- Python `s.split(sep, 1)[1]`: everything after the first occurrence of the
separator, or `none` when the separator does not occur (where the Python
indexing `[1]` would raise `IndexError`). -/
def pyAfterFirst (s sep : List Char) : Option (List Char) :=
  match pySplit s sep with
  | [] => none
  | [_] => none
  | _ :: rest => some (pyJoinWith sep rest)

/-- Python `s.splitlines()` restricted to `\n` newlines: empty string gives no
lines, and a trailing newline does not produce a trailing empty line. -/
def pySplitlines (s : List Char) : List (List Char) :=
  if s.isEmpty then []
  else
    if (pySplit s ['\n']).getLast? = some [] then (pySplit s ['\n']).dropLast
    else pySplit s ['\n']

/-- Model of `[t.strip() for t in part.split(",") if t.strip()]`
(src/main.py lines 306 and 315). -/
def comma_tags (s : List Char) : List (List Char) :=
  ((pySplit s [',']).map pyStrip).filter (fun t => !t.isEmpty)

/-- Model of the marker branch of `generate_description_and_tags`
(src/main.py lines 299-308): if `"TAGS" in out.upper()`, take the text after
the first case-sensitive `"TAGS"`, strip colons, turn newlines into spaces and
split on commas; the caught `IndexError` (marker present only in another case,
so `split("TAGS", 1)[1]` fails) yields `[]`, as does an absent marker. -/
def marker_tags (out : List Char) : List (List Char) :=
  if pyContainsSub (pyUpper out) "TAGS".data then
    match pyAfterFirst out "TAGS".data with
    | none => []
    | some tag_part =>
      comma_tags (pyReplace (pyReplace tag_part ":".data "".data) "\n".data " ".data)
  else []

/-- Model of the fallback branch of `generate_description_and_tags`
(src/main.py lines 310-315): the last line of the stripped response is used as
a comma-separated tag list when it contains a comma; otherwise no tags. -/
def lastline_tags (out : List Char) : List (List Char) :=
  match (pySplitlines (pyStrip out)).getLast? with
  | none => []
  | some candidate =>
    if pyContainsSub candidate ",".data then comma_tags candidate else []

/-- Model of the parsing part of `generate_description_and_tags`
(src/main.py lines 298-317), applied to the raw LLM response `out`: try the
marker branch, fall back to the last-line branch when it produced no tags, and
return the stripped response together with the tags. -/
def generate_description_and_tags (out : List Char) : List Char × List (List Char) :=
  (pyStrip out,
    if (marker_tags out).isEmpty then lastline_tags out else marker_tags out)

/-- Model of `split_script_into_sentences` (src/main.py lines 361-363):
`[s.strip() for s in script.replace("\n", " ").split(".") if s.strip()]`. -/
def split_script_into_sentences (script : List Char) : List (List Char) :=
  ((pySplit (pyReplace script "\n".data " ".data) ['.']).map pyStrip).filter
    (fun s => !s.isEmpty)

/-- Model of a `pipeline` run (src/main.py lines 378-469) from the point where
scripts and mixed audio exist: step 5 (line 429) evaluates the global name
`audio_path_to_duration`; Python name resolution finds no such definition in
the module, so the call raises `NameError` before any slide, video, thumbnail
or upload step runs. Inputs: the two scripts and the two mixed-audio durations
that steps 1-4 produced. -/
def pipeline_run (script_en script_hi : List Char) (mix_en_dur mix_hi_dur : ℚ)
    (prefer_vertical : Bool) : Except PyErr (VideoArtifact × VideoArtifact) :=
  if module_defined_names.contains "audio_path_to_duration" then
    pipeline_videos
      ((split_script_into_sentences script_en).map (fun cs => String.mk cs))
      ((split_script_into_sentences script_hi).map (fun cs => String.mk cs))
      mix_en_dur mix_hi_dur prefer_vertical
  else .error .nameError

/-- Sample LLM response containing a well-formed TAGS marker, used as the
concrete witness input for the tag-parsing theorems. -/
def sampleLLMOut : List Char :=
  "A short description.\nTAGS: cats, fun, science".data

/-
Helper lemmas shared by several claim theorems.
-/

/-- Scaling every element of a list scales its sum. -/
theorem list_sum_map_mul (l : List ℚ) (c : ℚ) :
    (l.map (fun d => d * c)).sum = l.sum * c := by
  induction l with
  | nil => simp
  | cons x xs ih => simp [ih, add_mul]

/-- Reconciliation succeeds whenever the unscaled total is non-zero. -/
theorem reconcile_durations_ok_of_sum_ne (ds : List ℚ) (t : ℚ) (h : ds.sum ≠ 0) :
    ∃ ds', reconcile_durations ds t = Except.ok ds' := by
  unfold reconcile_durations
  by_cases hc : |ds.sum - t| > 1/2
  · rw [if_pos hc, if_neg h]
    exact ⟨_, rfl⟩
  · rw [if_neg hc]
    exact ⟨_, rfl⟩

/-- In the scaling branch the reconciled total is exactly the target. -/
theorem reconcile_scaled_sum (ds : List ℚ) (t : ℚ) (h : ds.sum ≠ 0) :
    (ds.map (fun d => d * (t / ds.sum))).sum = t := by
  rw [list_sum_map_mul, mul_comm, div_mul_cancel₀ t h]

/-- The total slide duration produced by `build_slides_from_script`. -/
theorem build_slides_duration_sum (sentences : List String) (dur : ℚ)
    (res : ℕ × ℕ) (vb : Bool) :
    ((build_slides_from_script sentences dur res vb).map Slide.duration).sum =
      sentences.length * dur := by
  induction sentences with
  | nil => simp [build_slides_from_script]
  | cons s ss ih =>
    simp only [build_slides_from_script, List.map_cons, List.sum_cons,
      List.length_cons] at ih ⊢
    rw [ih]
    push_cast
    ring

/-- Video assembly succeeds whenever the unscaled slide total is non-zero. -/
theorem build_video_ok (slides : List Slide) (t : ℚ) (b : Bool)
    (h : (slides.map Slide.duration).sum ≠ 0) :
    ∃ va, build_video_from_slides_and_audio slides t b = Except.ok va := by
  obtain ⟨ds', hds⟩ := reconcile_durations_ok_of_sum_ne _ t h
  unfold build_video_from_slides_and_audio
  rw [hds]
  exact ⟨_, rfl⟩

/-
Claim theorems.
-/

/-- C1: for every duration d and boolean vertical preference, `detect_shorts`
returns true iff d ≤ 60 or the vertical preference is set; in particular
(45, false) is short-form, (90, false) is not, and (90, true) is. -/
theorem detect_shorts_spec :
    (∀ (d : ℚ) (v : Bool), detect_shorts d v = true ↔ (d ≤ 60 ∨ v = true)) ∧
    detect_shorts 45 false = true ∧
    detect_shorts 90 false = false ∧
    detect_shorts 90 true = true := by
  refine ⟨fun d v => ?_, by norm_num [detect_shorts], by norm_num [detect_shorts],
    by norm_num [detect_shorts]⟩
  cases v <;> simp [detect_shorts]

/-- C1 witness: the universally-quantified part of `detect_shorts_spec`
applied at the concrete input (45, false). -/
theorem detect_shorts_spec_witness : detect_shorts 45 false = true :=
  (detect_shorts_spec.1 45 false).mpr (Or.inl (by norm_num))

/-- C4: for positive narration and music durations, the mixed audio's duration
is the maximum of the narration duration and the extended music duration,
hence at least the narration duration, and the music is extended to at least
narration + 2 seconds. -/
theorem mixed_audio_covers_voice (v m : ℚ) (hv : 0 < v) (hm : 0 < m) :
    mixed_audio_duration v m = max v (music_loop_duration v m) ∧
    v ≤ mixed_audio_duration v m ∧
    v + 2 ≤ music_loop_duration v m := by
  refine ⟨max_comm _ _, le_max_right _ _, le_max_left _ _⟩

/-- C4 witness: `mixed_audio_covers_voice` at narration 10s, music 3s
(music shorter than narration). -/
theorem mixed_audio_covers_voice_witness :
    mixed_audio_duration 10 3 = max 10 (music_loop_duration 10 3) ∧
    (10 : ℚ) ≤ mixed_audio_duration 10 3 ∧
    (10 : ℚ) + 2 ≤ music_loop_duration 10 3 :=
  mixed_audio_covers_voice 10 3 (by norm_num) (by norm_num)

/-- C5 (code behaviour at the failing input): on an empty storyboard with a
10-second audio target, the reconciliation step of
`build_video_from_slides_and_audio` raises `ZeroDivisionError`
(`scale = audio.duration / 0`); no `EmptyStoryboardError` exists in the
module and the storyboard is not returned unchanged. -/
theorem reconcile_empty_storyboard_zero_division :
    reconcile_durations [] 10 = Except.error PyErr.zeroDivisionError := by
  norm_num [reconcile_durations]

/-- C6 counterexample: at the negative duration -5 (vertical flag false),
`detect_shorts` does not raise anything — it returns normally (classifying the
input as short-form), so it does not raise `InvalidDurationError` when the
duration is negative, contrary to the claim. -/
theorem detect_shorts_negative_counterexample :
    detect_shorts (-5) false = true := by
  norm_num [detect_shorts]

/-- C6 (amended): `detect_shorts` is a total pure function with no
failure modes at all — there is no negative-duration validation; every
negative duration returns normally and is classified as short-form. -/
theorem detect_shorts_never_raises (d : ℚ) (v : Bool) (hd : d < 0) :
    detect_shorts d v = true := by
  cases v
  · simp only [detect_shorts, Bool.false_eq_true, if_false, decide_eq_true_eq]
    linarith
  · rfl

/-- C6 witness: `detect_shorts_never_raises` at the concrete input (-1, true). -/
theorem detect_shorts_never_raises_witness :
    (-1 : ℚ) < 0 ∧ detect_shorts (-1) true = true :=
  ⟨by norm_num, detect_shorts_never_raises (-1) true (by norm_num)⟩

/-- C10: every `pipeline` run that reaches step 5 raises `NameError`, because
`audio_path_to_duration` is not among the names defined in the module; no run
reaches video assembly (or anything after it). -/
theorem pipeline_always_name_error :
    ∀ (script_en script_hi : List Char) (mix_en_dur mix_hi_dur : ℚ)
      (prefer_vertical : Bool),
      pipeline_run script_en script_hi mix_en_dur mix_hi_dur prefer_vertical =
        Except.error PyErr.nameError ∧
      module_defined_names.contains "audio_path_to_duration" = false := by
  intro script_en script_hi mix_en_dur mix_hi_dur prefer_vertical
  have h : module_defined_names.contains "audio_path_to_duration" = false := by decide
  refine ⟨?_, h⟩
  unfold pipeline_run
  rw [h]
  simp

/-- C2: for positive target duration and a non-empty storyboard with positive
frame durations, the reconciliation step succeeds, the reconciled total is
within 0.5s of the target (exactly equal in the scaling branch), and when the
unscaled total is already within 0.5s of the target no duration is changed. -/
theorem reconcile_matches_target (ds : List ℚ) (t : ℚ) (ht : 0 < t)
    (hne : ds ≠ []) (hpos : ∀ d ∈ ds, 0 < d) :
    ∃ ds', reconcile_durations ds t = Except.ok ds' ∧ |ds'.sum - t| ≤ 1/2 ∧
      (|ds.sum - t| ≤ 1/2 → ds' = ds) := by
  have htot : 0 < ds.sum := List.sum_pos ds hpos hne
  unfold reconcile_durations
  by_cases hc : |ds.sum - t| > 1/2
  · rw [if_pos hc, if_neg htot.ne']
    refine ⟨_, rfl, ?_, ?_⟩
    · rw [reconcile_scaled_sum ds t htot.ne', sub_self, abs_zero]
      norm_num
    · intro hle
      exact absurd hc (not_lt.mpr hle)
  · rw [if_neg hc]
    push_neg at hc
    exact ⟨ds, rfl, hc, fun _ => rfl⟩

/-- C2 witness: `reconcile_matches_target` at the storyboard [4.0s] against a
45-second audio target. -/
theorem reconcile_matches_target_witness :
    ∃ ds', reconcile_durations [4] 45 = Except.ok ds' ∧ |ds'.sum - 45| ≤ 1/2 ∧
      (|([4] : List ℚ).sum - 45| ≤ 1/2 → ds' = [4]) :=
  reconcile_matches_target [4] 45 (by norm_num) (by simp) (by norm_num)

/-- C3: reconciliation is idempotent — reconciling an already-reconciled
storyboard against the same target hits the 0.5s no-op branch and changes
nothing at all. -/
theorem reconcile_idempotent (ds : List ℚ) (t : ℚ) (ht : 0 < t)
    (hne : ds ≠ []) (hpos : ∀ d ∈ ds, 0 < d) (ds' : List ℚ)
    (h1 : reconcile_durations ds t = Except.ok ds') :
    reconcile_durations ds' t = Except.ok ds' := by
  have htot : 0 < ds.sum := List.sum_pos ds hpos hne
  unfold reconcile_durations at h1 ⊢
  by_cases hc : |ds.sum - t| > 1/2
  · rw [if_pos hc, if_neg htot.ne'] at h1
    have hds' : ds' = ds.map (fun d => d * (t / ds.sum)) := (Except.ok.inj h1).symm
    subst hds'
    have hns : ¬(|(ds.map (fun d => d * (t / ds.sum))).sum - t| > 1/2) := by
      rw [reconcile_scaled_sum ds t htot.ne', sub_self, abs_zero]
      norm_num
    rw [if_neg hns]
  · rw [if_neg hc] at h1
    have hds' : ds' = ds := (Except.ok.inj h1).symm
    subst hds'
    rw [if_neg hc]

/-- C3 witness: reconciling [4.0s] against 45s yields [45.0s]; reconciling the
result again against 45s is a no-op, via `reconcile_idempotent`. -/
theorem reconcile_idempotent_witness :
    reconcile_durations [45] 45 = Except.ok [45] :=
  reconcile_idempotent [4] 45 (by norm_num) (by simp) (by norm_num) [45]
    (by norm_num [reconcile_durations])

/-- C7: for every non-empty sentence list, `build_slides_from_script` produces
one slide per sentence, and the i-th slide is rendered from the i-th sentence
(frame order matches sentence order). -/
theorem build_slides_length_and_order (sentences : List String) (dur : ℚ)
    (res : ℕ × ℕ) (vertical : Bool) (hne : sentences ≠ []) :
    (build_slides_from_script sentences dur res vertical).length = sentences.length ∧
    ∀ i : ℕ,
      ((build_slides_from_script sentences dur res vertical)[i]?).map Slide.text =
        sentences[i]? := by
  constructor
  · simp [build_slides_from_script]
  · intro i
    simp only [build_slides_from_script, List.getElem?_map]
    cases sentences[i]? <;> simp

/-- C7 witness: `build_slides_length_and_order` on the two-sentence script
["a", "b"], checked at index 0. -/
theorem build_slides_length_and_order_witness :
    (build_slides_from_script ["a", "b"] 4 (1280, 720) false).length =
      (["a", "b"] : List String).length ∧
    ((build_slides_from_script ["a", "b"] 4 (1280, 720) false)[0]?).map Slide.text =
      (["a", "b"] : List String)[0]? := by
  have h := build_slides_length_and_order ["a", "b"] 4 (1280, 720) false (by simp)
  exact ⟨h.1, h.2 0⟩

/-- C8: the tag parsing of `generate_description_and_tags` follows the
fallback chain and never fails: when the marker branch yields tags they are
used; when it yields none, the last line of the stripped response is used as a
comma-separated tag list if it contains a comma; failing that the tag list is
empty; and with no recognizable marker the marker branch itself yields no
tags. The function is total, so parsing never raises. -/
theorem generate_tags_fallback_chain (out : List Char) :
    (pyContainsSub (pyUpper out) "TAGS".data = false → marker_tags out = []) ∧
    (marker_tags out ≠ [] →
      (generate_description_and_tags out).2 = marker_tags out) ∧
    (marker_tags out = [] → ∀ candidate,
      (pySplitlines (pyStrip out)).getLast? = some candidate →
      pyContainsSub candidate ",".data = true →
      (generate_description_and_tags out).2 = comma_tags candidate) ∧
    (marker_tags out = [] → lastline_tags out = [] →
      (generate_description_and_tags out).2 = []) := by
  refine ⟨?_, ?_, ?_, ?_⟩
  · intro h
    simp [marker_tags, h]
  · intro h
    cases hm : marker_tags out with
    | nil => exact absurd hm h
    | cons a as => simp [generate_description_and_tags, hm]
  · intro h c hc hcomma
    simp [generate_description_and_tags, h, lastline_tags, hc, hcomma]
  · intro h h2
    simp [generate_description_and_tags, h, h2]

/-- C8 witness: `generate_tags_fallback_chain` at a concrete response with a
well-formed TAGS marker; the marker branch produces the tags. -/
theorem generate_tags_fallback_chain_witness :
    marker_tags sampleLLMOut ≠ [] ∧
    (generate_description_and_tags sampleLLMOut).2 = marker_tags sampleLLMOut :=
  ⟨by decide, (generate_tags_fallback_chain sampleLLMOut).2.1 (by decide)⟩

/-- C9 (amended): the Hindi variant's video depends on the English branch only
through the shared short-form flag, which `pipeline` computes once from the
English mix duration; holding that flag equal (and the scripts fixed), two
runs differing in the English mix duration produce identical Hindi videos. -/
theorem hindi_video_independent_given_format
    (sentences_en sentences_hi : List String) (d_en d_en' d_hi : ℚ) (v : Bool)
    (hen : sentences_en ≠ [])
    (hfmt : detect_shorts (audio_path_to_duration d_en) v =
      detect_shorts (audio_path_to_duration d_en') v) :
    (pipeline_videos sentences_en sentences_hi d_en d_hi v).map Prod.snd =
      (pipeline_videos sentences_en sentences_hi d_en' d_hi v).map Prod.snd := by
  have hlen : (sentences_en.length : ℚ) ≠ 0 :=
    Nat.cast_ne_zero.mpr (fun h => hen (List.length_eq_zero.mp h))
  have hsum : ((build_slides_from_script sentences_en 4
      (if v then (720, 1280) else (1280, 720)) v).map Slide.duration).sum ≠ 0 := by
    rw [build_slides_duration_sum]
    exact mul_ne_zero hlen (by norm_num)
  obtain ⟨va, hva⟩ := build_video_ok _ d_en
    (detect_shorts (audio_path_to_duration d_en') v) hsum
  obtain ⟨va', hva'⟩ := build_video_ok _ d_en'
    (detect_shorts (audio_path_to_duration d_en') v) hsum
  unfold pipeline_videos
  rw [hfmt, hva, hva']
  rcases hhi : build_video_from_slides_and_audio
      (build_slides_from_script sentences_hi 4
        (if v then (720, 1280) else (1280, 720)) v) d_hi
      (detect_shorts (audio_path_to_duration d_en') v) with e | vh <;> rfl

/-- C9 witness: `hindi_video_independent_given_format` with English mixes of
45s and 50s (both short-form), a one-sentence script per language and a
4-second Hindi mix. -/
theorem hindi_video_independent_given_format_witness :
    (pipeline_videos ["hello"] ["namaste"] 45 4 false).map Prod.snd =
      (pipeline_videos ["hello"] ["namaste"] 50 4 false).map Prod.snd :=
  hindi_video_independent_given_format ["hello"] ["namaste"] 45 50 4 false
    (by simp) (by rfl)

/-- Evaluation helper: `build_video_from_slides_and_audio` on a single slide,
given the reconciliation result. -/
theorem build_video_eval (s : Slide) (t : ℚ) (b : Bool) (ds : List ℚ)
    (h : reconcile_durations [s.duration] t = Except.ok ds) :
    build_video_from_slides_and_audio [s] t b =
      Except.ok ⟨[s.text], ds, t, b,
        (if b then (720, 1280) else (s.width * 720 / s.height, 720)).1,
        (if b then (720, 1280) else (s.width * 720 / s.height, 720)).2⟩ := by
  unfold build_video_from_slides_and_audio
  rw [show List.map Slide.duration [s] = [s.duration] from rfl, h]
  rfl

/-- Evaluation helper: `pipeline_videos` on one-sentence scripts with
horizontal preference, given the two per-language video results. -/
theorem pipeline_videos_eval (s_en s_hi : String) (d_en d_hi : ℚ)
    (ven vhi : VideoArtifact)
    (h_en : build_video_from_slides_and_audio [⟨s_en, 4, 1280, 720⟩] d_en
      (detect_shorts d_en false) = Except.ok ven)
    (h_hi : build_video_from_slides_and_audio [⟨s_hi, 4, 1280, 720⟩] d_hi
      (detect_shorts d_en false) = Except.ok vhi) :
    pipeline_videos [s_en] [s_hi] d_en d_hi false = Except.ok (ven, vhi) := by
  unfold pipeline_videos
  rw [show build_slides_from_script [s_en] 4
        (if false then (720, 1280) else (1280, 720)) false = [⟨s_en, 4, 1280, 720⟩] from rfl,
      show build_slides_from_script [s_hi] 4
        (if false then (720, 1280) else (1280, 720)) false = [⟨s_hi, 4, 1280, 720⟩] from rfl,
      show audio_path_to_duration d_en = d_en from rfl, h_en, h_hi]

/-- C9 counterexample: two runs that differ only in the English mix duration
(45s vs 90s, horizontal preference) produce different Hindi videos — the
shared shorts flag flips, flipping the Hindi variant's classification and
output geometry — so the Hindi output is not a function of the Hindi inputs
alone. -/
theorem hindi_video_depends_on_english_duration :
    (pipeline_videos ["hello"] ["namaste"] 45 4 false).map Prod.snd ≠
      (pipeline_videos ["hello"] ["namaste"] 90 4 false).map Prod.snd := by
  have hen45 : reconcile_durations [(4 : ℚ)] 45 = Except.ok [45] := by
    norm_num [reconcile_durations]
  have hen90 : reconcile_durations [(4 : ℚ)] 90 = Except.ok [90] := by
    norm_num [reconcile_durations]
  have hhi4 : reconcile_durations [(4 : ℚ)] 4 = Except.ok [4] := by
    norm_num [reconcile_durations]
  have h1 := pipeline_videos_eval "hello" "namaste" 45 4 _ _
    (build_video_eval ⟨"hello", 4, 1280, 720⟩ 45 true [45] hen45)
    (build_video_eval ⟨"namaste", 4, 1280, 720⟩ 4 true [4] hhi4)
  have h2 := pipeline_videos_eval "hello" "namaste" 90 4 _ _
    (build_video_eval ⟨"hello", 4, 1280, 720⟩ 90 false [90] hen90)
    (build_video_eval ⟨"namaste", 4, 1280, 720⟩ 4 false [4] hhi4)
  rw [h1, h2]
  simp [Except.map]
